import Mathlib

set_option allowUnsafeReducibility true in
attribute [semireducible] Rat.add Rat.mul Rat.inv Rat.sub

/-!
Shallow embedding of the invoice-dashboard analytics pipeline (src/app.py)
and verification of its specification claims.

A pandas DataFrame is modelled as a `Table`: an ordered list of rows plus
Boolean flags recording which computed columns currently exist on the frame
(`Due_In_Days` and `Priority` are absent on the freshly loaded table and are
created by `prioritize_payments`, which assigns them on the frame it is
given, i.e. in place).  Dates are day numbers (`Int`), currency amounts are
exact rationals (`Rat`), matching the decimal-currency data model.  The
implicit `datetime.now()` is threaded as an explicit `now : Int` parameter.
-/

namespace InvoiceApp

/-- One row of the invoice table.  `dueInDays` and `priority` model the cells
of the computed columns; their values are meaningful only when the owning
table's column-presence flags are set. -/
structure Row where
  invoice_id : String
  supplier_name : String
  invoice_date : Int
  due_date : Int
  amount : Rat
  status : String
  dueInDays : Int := 0
  priority : String := ""
deriving DecidableEq, Repr

/-- A dataframe: ordered rows plus presence flags for the two computed
columns that `prioritize_payments` creates. -/
structure Table where
  rows : List Row
  hasDueInDays : Bool := false
  hasPriority : Bool := false
deriving DecidableEq, Repr

/-- A freshly loaded table (the Data Loader output): the given rows, with
neither computed column present. -/
def loadTable (rs : List Row) : Table := { rows := rs }

/-- The priority label computed by the nested np.where in
prioritize_payments: Due_In_Days < 5 gives High, elif < 10 Medium,
else Low. -/
def priorityLabel (d : Int) : String :=
  if d < 5 then "High" else if d < 10 then "Medium" else "Low"

/-- One row after prioritize_payments has assigned the two computed columns:
Due_In_Days := due date minus now (in days), Priority := label of that. -/
def annotateRow (now : Int) (r : Row) : Row :=
  { r with dueInDays := r.due_date - now,
           priority := priorityLabel (r.due_date - now) }

/-- The state of the dataframe passed to prioritize_payments AFTER the call:
the two column assignments mutate the frame in place (rows keep their
original order; the computed columns now exist). -/
def prioritizeEffect (now : Int) (t : Table) : Table :=
  { rows := t.rows.map (annotateRow now), hasDueInDays := true, hasPriority := true }

/-- Lexicographic comparison of character lists by code point: the string
order Python (and hence pandas sort_values on an object column) uses. -/
def strLtChars : List Char → List Char → Bool
  | [], [] => false
  | [], _ :: _ => true
  | _ :: _, [] => false
  | c :: cs, d :: ds =>
    if c.val.toNat < d.val.toNat then true
    else if d.val.toNat < c.val.toNat then false
    else strLtChars cs ds

/-- Strict lexicographic order on strings by code point. -/
def strLt (a b : String) : Prop := strLtChars a.data b.data = true

instance : DecidableRel strLt := fun a b => by
  unfold strLt; infer_instance

/-- The row order produced by df.sort_values(by := [Priority, Due_In_Days]):
ascending lexicographic on the pair (Priority as a STRING, Due_In_Days). -/
def rowLe (a b : Row) : Prop :=
  strLt a.priority b.priority ∨ (a.priority = b.priority ∧ a.dueInDays ≤ b.dueInDays)

instance : DecidableRel rowLe := fun a b => by
  unfold rowLe; infer_instance

/-- prioritize_payments: assign Due_In_Days and Priority on the input frame,
then return a sorted copy ordered by (Priority string, Due_In_Days). -/
def prioritize_payments (now : Int) (t : Table) : Table :=
  let annotated := prioritizeEffect now t
  { annotated with rows := annotated.rows.insertionSort rowLe }

/-- The fields of a row that the loaded table carries (everything except the
two computed columns). -/
def core (r : Row) : String × String × Int × Int × Rat × String :=
  (r.invoice_id, r.supplier_name, r.invoice_date, r.due_date, r.amount, r.status)

/-- An anomaly finding: the duplicate-invoice message with the listed id
occurrences, or the high-amount message with the listed ids. -/
inductive Finding where
  | duplicates (ids : List String)
  | highAmounts (ids : List String)
deriving DecidableEq, Repr

/-- pandas Series.quantile(0.95) with the default linear interpolation:
with the n values sorted ascending, position h = (n-1)*0.95, the result
interpolates between the values at floor h and floor h + 1. -/
def quantile95 (xs : List Rat) : Rat :=
  let s := xs.insertionSort (· ≤ ·)
  let n := s.length
  if n = 0 then 0
  else
    let h : Rat := ((n : Rat) - 1) * (19 / 20)
    let i : Nat := h.floor.toNat
    let lo := s.getD i 0
    let hi := s.getD (i + 1) lo
    lo + (h - (i : Rat)) * (hi - lo)

/-- The rows kept by df.duplicated(subset := [Invoice_ID], keep := False):
every row whose invoice id occurs at least twice in the table. -/
def dupRows (t : Table) : List Row :=
  t.rows.filter (fun r => 2 ≤ t.rows.countP (fun s => s.invoice_id == r.invoice_id))

/-- The rows whose Amount strictly exceeds the 0.95 quantile of the whole
Amount column. -/
def highRows (t : Table) : List Row :=
  t.rows.filter (fun r => quantile95 (t.rows.map (fun s => s.amount)) < r.amount)

/-- detect_anomalies: the duplicate finding (if any duplicated rows exist)
followed by the high-amount finding (if any high rows exist), each listing
the ids of its rows in table order. -/
def detect_anomalies (t : Table) : List Finding :=
  (if (dupRows t).isEmpty then []
   else [Finding.duplicates ((dupRows t).map (fun r => r.invoice_id))]) ++
  (if (highRows t).isEmpty then []
   else [Finding.highAmounts ((highRows t).map (fun r => r.invoice_id))])

/-- The cash-flow risk summary dict. -/
structure CashFlowRisk where
  Total_Pending_Amount : Rat
  Amount_Due_Soon : Rat
  Risk_Level : String
deriving DecidableEq, Repr

/-- The sum of Amount over rows with Status Pending (the total_pending
local of forecast_cash_flow_risks). -/
def total_pending (t : Table) : Rat :=
  ((t.rows.filter (fun r => r.status == "Pending")).map (fun r => r.amount)).sum

/-- The sum of Amount over rows with Due_In_Days < 10 and Status Pending
(the due_soon local of forecast_cash_flow_risks). -/
def due_soon (t : Table) : Rat :=
  ((t.rows.filter (fun r => r.dueInDays < 10 && r.status == "Pending")).map
    (fun r => r.amount)).sum

/-- forecast_cash_flow_risks: sums the Amount of Pending rows, and of
Pending rows with Due_In_Days < 10.  Reading df[Due_In_Days] raises a
KeyError when the column does not exist on the frame, i.e. when
prioritize_payments has not run on it: modelled as none. -/
def forecast_cash_flow_risks (t : Table) : Option CashFlowRisk :=
  if t.hasDueInDays then
    some { Total_Pending_Amount := total_pending t, Amount_Due_Soon := due_soon t,
           Risk_Level := if (1 / 2 : Rat) * total_pending t < due_soon t then "High" else "Low" }
  else none

/-- The forecast failure modes of the spec taxonomy.  Prophet.fit raises its
fewer-than-2-rows ValueError before any fitting, which is the
insufficient-data failure; numerical failures during fitting are the
fitting failure (never produced by this deterministic model). -/
inductive ForecastError where
  | insufficientData
  | fittingError
deriving DecidableEq, Repr

/-- The Invoice_Date values of the Pending rows (with multiplicity, in table
order): the column grouped by forecast_future_payments. -/
def pendingDates (t : Table) : List Int :=
  (t.rows.filter (fun r => r.status == "Pending")).map (fun r => r.invoice_date)

/-- The index of the daily_pending groupby frame: the distinct Pending
invoice dates in ascending order (pandas groupby sorts its keys). -/
def dailyDates (t : Table) : List Int :=
  (pendingDates t).dedup.insertionSort (· ≤ ·)

/-- forecast_future_payments, restricted to the date spine of its output
(the ds column): Prophet.fit raises when the grouped history has fewer than
2 rows; otherwise predict over make_future_dataframe(periods := 30) yields
one row per historical distinct date plus the 30 consecutive days after the
last historical date. -/
def forecast_future_payments (t : Table) : Except ForecastError (List Int) :=
  if (dailyDates t).length < 2 then Except.error ForecastError.insufficientData
  else Except.ok (dailyDates t ++
    (List.range 30).map (fun i : Nat => (dailyDates t).getLastD 0 + ((i : Int) + 1)))

/-! Concrete tables used as witnesses and counterexamples. -/

/-- A Pending invoice row of the loaded table with the given id, invoice
date, due date and amount. -/
def mkRow (id : String) (inv due : Int) (amt : Rat) : Row :=
  { invoice_id := id, supplier_name := "s", invoice_date := inv, due_date := due,
    amount := amt, status := "Pending" }

/-- Three rows, one per priority tier when now = 0: due in 2 (High), 7
(Medium) and 20 (Low) days. -/
def tblHML : Table := loadTable [mkRow "h" 0 2 10, mkRow "m" 0 7 10, mkRow "l" 0 20 10]

/-- Invoice ids A, A, B with equal amounts. -/
def tblAAB : Table := loadTable [mkRow "A" 0 3 10, mkRow "A" 1 4 10, mkRow "B" 2 5 10]

/-- A loaded one-row table with a Pending invoice. -/
def rawPend : Table := loadTable [mkRow "p" 0 3 7]

/-- Annotated table with total pending 100 and 51 due soon (due in 3 vs 20
days, now = 0). -/
def tbl51 : Table := prioritizeEffect 0 (loadTable [mkRow "a" 0 3 51, mkRow "b" 0 20 49])

/-- Annotated table with total pending 100 and 50 due soon. -/
def tbl50 : Table := prioritizeEffect 0 (loadTable [mkRow "a" 0 3 50, mkRow "b" 0 20 50])

/-- An annotated empty table (prioritize_payments on an empty frame still
creates the computed columns). -/
def tblEmptyAnn : Table := prioritizeEffect 0 (loadTable [])

/-- Two Pending rows on distinct invoice dates 0 and 1: enough history for
the forecaster. -/
def tblTwoDates : Table := loadTable [mkRow "a" 0 9 5, mkRow "b" 1 9 6]

/-! Theorems. -/

/-- C5: the priority classification is exactly the half-open tiers: below 5
High, from 5 below 10 Medium, from 10 on Low; in particular 5 is Medium and
10 is Low. -/
theorem claim_C5 : ∀ d : Int,
    (priorityLabel d = "High" ↔ d < 5) ∧
    (priorityLabel d = "Medium" ↔ 5 ≤ d ∧ d < 10) ∧
    (priorityLabel d = "Low" ↔ 10 ≤ d) ∧
    priorityLabel 5 = "Medium" ∧ priorityLabel 10 = "Low" := by
  intro d
  refine ⟨?_, ?_, ?_, by decide, by decide⟩ <;>
    · unfold priorityLabel
      split_ifs <;> simp_all <;> omega

/-- C1 (code bug evaluation): on a table with one row in each tier,
prioritize_payments orders the rows High, Low, Medium, because it sorts by
the Priority label as a string and alphabetically Low sorts before Medium;
the claimed High, Medium, Low order does not hold. -/
theorem claim_C1 :
    (prioritize_payments 0 tblHML).rows.map (fun r => (r.invoice_id, r.priority)) =
      [("h", "High"), ("l", "Low"), ("m", "Medium")] := by decide

/-- C2 counterexample: prioritize_payments assigns the computed columns on
the frame it is given, so after the call the loaded one-row table is no
longer equal to its original state. -/
theorem claim_C2_cex : prioritizeEffect 0 rawPend ≠ rawPend := by decide

/-- C2 amended: prioritize_payments does mutate its input table (it gains
the Due_In_Days and Priority computed columns), but the mutation only adds
those columns: every original field and the row order are preserved, and
re-annotating with the same now is idempotent, so repeated calls still see
the same underlying data. -/
theorem claim_C2 : ∀ (now : Int) (t : Table),
    (prioritizeEffect now t).rows.map core = t.rows.map core ∧
    (prioritizeEffect now t).hasDueInDays = true ∧
    (prioritizeEffect now t).hasPriority = true ∧
    prioritizeEffect now (prioritizeEffect now t) = prioritizeEffect now t := by
  intro now t
  have hcore : core ∘ annotateRow now = core := funext fun r => rfl
  have hann : annotateRow now ∘ annotateRow now = annotateRow now := funext fun r => rfl
  refine ⟨?_, rfl, rfl, ?_⟩
  · rw [prioritizeEffect, List.map_map, hcore]
  · simp only [prioritizeEffect, List.map_map, hann]

/-- C3 counterexample: on the freshly loaded table the risk summary fails
(the Due_In_Days column it reads does not exist), while after
prioritize_payments has annotated the table it succeeds: the summary is not
a function of the raw loaded table alone. -/
theorem claim_C3_cex :
    forecast_cash_flow_risks rawPend = none ∧
    forecast_cash_flow_risks (prioritizeEffect 0 rawPend) =
      some { Total_Pending_Amount := 7, Amount_Due_Soon := 7, Risk_Level := "High" } := by
  exact ⟨by decide, by decide⟩

/-- C3 amended: forecast_cash_flow_risks reads the Due_In_Days column that
only prioritize_payments creates, instead of recomputing due dates itself:
on a table not yet annotated it fails, and on the annotated table (same
now) it returns the Pending sum and the Pending-due-within-10-days sum of
the original rows. -/
theorem claim_C3 (t : Table) (now : Int) (h : t.hasDueInDays = false) :
    forecast_cash_flow_risks t = none ∧
    ∃ cf, forecast_cash_flow_risks (prioritizeEffect now t) = some cf ∧
      cf.Total_Pending_Amount =
        ((t.rows.filter (fun r => r.status == "Pending")).map (fun r => r.amount)).sum ∧
      cf.Amount_Due_Soon =
        ((t.rows.filter (fun r => r.due_date - now < 10 && r.status == "Pending")).map
          (fun r => r.amount)).sum := by
  constructor
  · simp [forecast_cash_flow_risks, h]
  · refine ⟨_, rfl, ?_, ?_⟩
    · show total_pending (prioritizeEffect now t) = _
      rw [total_pending, prioritizeEffect]
      rw [List.filter_map, List.map_map]
      rfl
    · show due_soon (prioritizeEffect now t) = _
      rw [due_soon, prioritizeEffect]
      rw [List.filter_map, List.map_map]
      rfl

/-- C3 witness: the amended claim instantiated on the concrete loaded
one-row table. -/
theorem claim_C3_witness :
    forecast_cash_flow_risks rawPend = none ∧
    ∃ cf, forecast_cash_flow_risks (prioritizeEffect 0 rawPend) = some cf ∧
      cf.Total_Pending_Amount =
        ((rawPend.rows.filter (fun r => r.status == "Pending")).map (fun r => r.amount)).sum ∧
      cf.Amount_Due_Soon =
        ((rawPend.rows.filter (fun r => r.due_date - 0 < 10 && r.status == "Pending")).map
          (fun r => r.amount)).sum :=
  claim_C3 rawPend 0 rfl

/-- C8: the risk level is High exactly when the due-soon amount strictly
exceeds half the pending total; a zero pending total with zero due soon
gives Low; and the boundary examples: total 100 with 51 due soon is High,
with 50 due soon is Low, and the empty (annotated) table gives total 0,
due soon 0, Low. -/
theorem claim_C8 :
    (∀ t : Table, t.hasDueInDays = true →
      ∃ cf, forecast_cash_flow_risks t = some cf ∧
        (cf.Risk_Level = "High" ↔ (1 / 2 : Rat) * cf.Total_Pending_Amount < cf.Amount_Due_Soon) ∧
        (cf.Total_Pending_Amount = 0 → cf.Amount_Due_Soon = 0 → cf.Risk_Level = "Low")) ∧
    forecast_cash_flow_risks tbl51 =
      some { Total_Pending_Amount := 100, Amount_Due_Soon := 51, Risk_Level := "High" } ∧
    forecast_cash_flow_risks tbl50 =
      some { Total_Pending_Amount := 100, Amount_Due_Soon := 50, Risk_Level := "Low" } ∧
    forecast_cash_flow_risks tblEmptyAnn =
      some { Total_Pending_Amount := 0, Amount_Due_Soon := 0, Risk_Level := "Low" } := by
  refine ⟨?_, by decide, by decide, by decide⟩
  intro t h
  rw [forecast_cash_flow_risks, h]
  refine ⟨_, rfl, ?_, ?_⟩
  · dsimp only
    split_ifs with hc
    · simpa using hc
    · simpa using hc
  · intro h1 h2
    dsimp only at h1 h2 ⊢
    rw [h1, h2, if_neg (by norm_num)]

/-- C8 witness: the general part of the claim instantiated on the concrete
annotated empty table. -/
theorem claim_C8_witness :
    ∃ cf, forecast_cash_flow_risks tblEmptyAnn = some cf ∧
      (cf.Risk_Level = "High" ↔ (1 / 2 : Rat) * cf.Total_Pending_Amount < cf.Amount_Due_Soon) ∧
      (cf.Total_Pending_Amount = 0 → cf.Amount_Due_Soon = 0 → cf.Risk_Level = "Low") :=
  claim_C8.1 tblEmptyAnn rfl

/-- With non-negative amounts, the due-soon sum is non-negative and bounded
by the pending total: its rows are a sub-filter of the Pending rows. -/
lemma due_soon_le_total_pending (t : Table) (hamt : ∀ r ∈ t.rows, 0 ≤ r.amount) :
    0 ≤ due_soon t ∧ due_soon t ≤ total_pending t := by
  have hsub : List.Sublist (t.rows.filter (fun r => r.dueInDays < 10 && r.status == "Pending"))
      (t.rows.filter (fun r => r.status == "Pending")) := by
    rw [← List.filter_filter]
    exact List.filter_sublist _
  constructor
  · refine List.sum_nonneg ?_
    intro a ha
    obtain ⟨r, hr, rfl⟩ := List.mem_map.mp ha
    exact hamt r (List.mem_of_mem_filter hr)
  · refine List.Sublist.sum_le_sum (hsub.map (fun r => r.amount)) ?_
    intro a ha
    obtain ⟨r, hr, rfl⟩ := List.mem_map.mp ha
    exact hamt r (List.mem_of_mem_filter hr)

/-- C10: with all amounts non-negative, any summary the risk component
returns satisfies 0 ≤ amount due soon ≤ total pending, and a High risk
level forces a strictly positive pending total. -/
theorem claim_C10 (t : Table) (cf : CashFlowRisk)
    (hamt : ∀ r ∈ t.rows, 0 ≤ r.amount)
    (hcf : forecast_cash_flow_risks t = some cf) :
    0 ≤ cf.Amount_Due_Soon ∧ cf.Amount_Due_Soon ≤ cf.Total_Pending_Amount ∧
    (cf.Risk_Level = "High" → 0 < cf.Total_Pending_Amount) := by
  by_cases h : t.hasDueInDays = true
  · rw [forecast_cash_flow_risks, h, if_pos rfl] at hcf
    obtain rfl := Option.some.inj hcf
    obtain ⟨h0, hle⟩ := due_soon_le_total_pending t hamt
    refine ⟨h0, hle, ?_⟩
    intro hH
    dsimp only at hH h0 hle ⊢
    by_cases hc : (1 / 2 : Rat) * total_pending t < due_soon t
    · linarith
    · rw [if_neg hc] at hH
      simp at hH
  · rw [forecast_cash_flow_risks] at hcf
    rw [Bool.not_eq_true] at h
    rw [h] at hcf
    simp at hcf

/-- C10 witness: the invariant instantiated on the concrete annotated table
with total 100 and 51 due soon. -/
theorem claim_C10_witness :
    0 ≤ (51 : Rat) ∧ (51 : Rat) ≤ (100 : Rat) ∧
    (("High" : String) = "High" → (0 : Rat) < 100) :=
  claim_C10 tbl51 { Total_Pending_Amount := 100, Amount_Due_Soon := 51, Risk_Level := "High" }
    (by decide) (by decide)

/-- The duplicate check fires exactly when some row's invoice id occurs at
least twice. -/
lemma dupRows_ne_nil_iff (t : Table) :
    dupRows t ≠ [] ↔
      ∃ r ∈ t.rows, 2 ≤ t.rows.countP (fun s => s.invoice_id == r.invoice_id) := by
  constructor
  · intro h
    obtain ⟨r, hr⟩ := List.exists_mem_of_ne_nil _ h
    rw [dupRows, List.mem_filter] at hr
    exact ⟨r, hr.1, by simpa using hr.2⟩
  · rintro ⟨r, hr, hc⟩
    exact List.ne_nil_of_mem (List.mem_filter.mpr ⟨hr, by simpa using hc⟩)

/-- The high-amount check fires exactly when some row's amount strictly
exceeds the 0.95 quantile of the whole Amount column. -/
lemma highRows_ne_nil_iff (t : Table) :
    highRows t ≠ [] ↔
      ∃ r ∈ t.rows, quantile95 (t.rows.map (fun s => s.amount)) < r.amount := by
  constructor
  · intro h
    obtain ⟨r, hr⟩ := List.exists_mem_of_ne_nil _ h
    rw [highRows, List.mem_filter] at hr
    exact ⟨r, hr.1, by simpa using hr.2⟩
  · rintro ⟨r, hr, hc⟩
    exact List.ne_nil_of_mem (List.mem_filter.mpr ⟨hr, by simpa using hc⟩)

/-- C6: whenever some invoice id occurs at least twice, detect_anomalies
starts with a single duplicate finding listing the id of every row whose id
is duplicated (occurrences kept, not deduplicated); on ids A, A, B with
equal amounts it reports both occurrences of A and nothing else. -/
theorem claim_C6 :
    (∀ t : Table,
      (∃ r ∈ t.rows, 2 ≤ t.rows.countP (fun s => s.invoice_id == r.invoice_id)) →
      ∃ rest, detect_anomalies t =
        Finding.duplicates
          ((t.rows.filter
            (fun r => 2 ≤ t.rows.countP (fun s => s.invoice_id == r.invoice_id))).map
            (fun r => r.invoice_id)) :: rest) ∧
    detect_anomalies tblAAB = [Finding.duplicates ["A", "A"]] := by
  refine ⟨?_, by decide⟩
  intro t ht
  have hne : dupRows t ≠ [] := (dupRows_ne_nil_iff t).mpr ht
  refine ⟨if (highRows t).isEmpty then []
    else [Finding.highAmounts ((highRows t).map (fun r => r.invoice_id))], ?_⟩
  rw [detect_anomalies, if_neg (by simpa [List.isEmpty_iff] using hne)]
  rfl

/-- C6 witness: the general part of the claim instantiated on the concrete
A, A, B table. -/
theorem claim_C6_witness :
    ∃ rest, detect_anomalies tblAAB =
      Finding.duplicates
        ((tblAAB.rows.filter
          (fun r => 2 ≤ tblAAB.rows.countP (fun s => s.invoice_id == r.invoice_id))).map
          (fun r => r.invoice_id)) :: rest :=
  claim_C6.1 tblAAB (by decide)

/-- C7: detect_anomalies returns at most two findings; a high-amount
finding is present exactly when some amount strictly exceeds the 0.95
quantile; when both findings are present the duplicate one comes first; and
with no duplicate ids and no high amount the result is empty. -/
theorem claim_C7 (t : Table) :
    (detect_anomalies t).length ≤ 2 ∧
    ((∃ r ∈ t.rows, quantile95 (t.rows.map (fun s => s.amount)) < r.amount) ↔
      ∃ ids, Finding.highAmounts ids ∈ detect_anomalies t) ∧
    ((detect_anomalies t).length = 2 →
      detect_anomalies t =
        [Finding.duplicates ((dupRows t).map (fun r => r.invoice_id)),
         Finding.highAmounts ((highRows t).map (fun r => r.invoice_id))]) ∧
    ((¬ ∃ r ∈ t.rows, 2 ≤ t.rows.countP (fun s => s.invoice_id == r.invoice_id)) →
      (¬ ∃ r ∈ t.rows, quantile95 (t.rows.map (fun s => s.amount)) < r.amount) →
      detect_anomalies t = []) := by
  rw [← dupRows_ne_nil_iff, ← highRows_ne_nil_iff]
  by_cases hd : (dupRows t).isEmpty <;> by_cases hh : (highRows t).isEmpty <;>
    simp_all [detect_anomalies, List.isEmpty_iff]

/-- C7 witness: the claim instantiated on the concrete A, A, B table. -/
theorem claim_C7_witness :
    (detect_anomalies tblAAB).length ≤ 2 ∧
    ((∃ r ∈ tblAAB.rows, quantile95 (tblAAB.rows.map (fun s => s.amount)) < r.amount) ↔
      ∃ ids, Finding.highAmounts ids ∈ detect_anomalies tblAAB) ∧
    ((detect_anomalies tblAAB).length = 2 →
      detect_anomalies tblAAB =
        [Finding.duplicates ((dupRows tblAAB).map (fun r => r.invoice_id)),
         Finding.highAmounts ((highRows tblAAB).map (fun r => r.invoice_id))]) ∧
    ((¬ ∃ r ∈ tblAAB.rows, 2 ≤ tblAAB.rows.countP (fun s => s.invoice_id == r.invoice_id)) →
      (¬ ∃ r ∈ tblAAB.rows, quantile95 (tblAAB.rows.map (fun s => s.amount)) < r.amount) →
      detect_anomalies tblAAB = []) :=
  claim_C7 tblAAB

/-- The grouped history dates are weakly sorted. -/
lemma dailyDates_sorted (t : Table) : (dailyDates t).Sorted (· ≤ ·) :=
  List.sorted_insertionSort _ _

/-- The grouped history dates are distinct. -/
lemma dailyDates_nodup (t : Table) : (dailyDates t).Nodup :=
  (List.perm_insertionSort _ _).nodup_iff.mpr (List.nodup_dedup _)

/-- Every member of a weakly sorted list is at most its last element. -/
lemma sorted_le_getLastD :
    ∀ l : List Int, l.Sorted (· ≤ ·) → ∀ a ∈ l, ∀ dflt : Int, a ≤ l.getLastD dflt := by
  intro l
  induction l with
  | nil =>
    intro _ a ha
    exact absurd ha (List.not_mem_nil a)
  | cons x xs ih =>
    intro hs a ha dflt
    cases xs with
    | nil =>
      have : a = x := by simpa using ha
      simp [this]
    | cons y ys =>
      rw [List.getLastD_cons]
      rcases List.mem_cons.mp ha with rfl | hmem
      · have hxy : a ≤ y := (List.sorted_cons.mp hs).1 y (List.mem_cons_self y ys)
        exact le_trans hxy (ih (List.sorted_cons.mp hs).2 y (List.mem_cons_self y ys) a)
      · exact ih (List.sorted_cons.mp hs).2 a hmem x

/-- C4: whenever the Pending rows have fewer than 2 distinct invoice dates,
the forecaster fails with the insufficient-data error (the fit is never
attempted, so no other error can occur). -/
theorem claim_C4 (t : Table) (h : (pendingDates t).dedup.length < 2) :
    forecast_future_payments t = Except.error ForecastError.insufficientData := by
  have hl : (dailyDates t).length = (pendingDates t).dedup.length :=
    (List.perm_insertionSort _ _).length_eq
  rw [forecast_future_payments, if_pos (by rw [hl]; exact h)]

/-- C4 witness: the claim instantiated on the one-row loaded table, which
has a single distinct Pending invoice date. -/
theorem claim_C4_witness :
    forecast_future_payments rawPend = Except.error ForecastError.insufficientData :=
  claim_C4 rawPend (by decide)

/-- C9: whenever the forecaster succeeds, its date spine has exactly the
number of distinct Pending invoice dates plus 30 rows, strictly ascending
with no duplicate dates. -/
theorem claim_C9 (t : Table) (ds : List Int)
    (h : forecast_future_payments t = Except.ok ds) :
    ds.length = (pendingDates t).dedup.length + 30 ∧ ds.Sorted (· < ·) ∧ ds.Nodup := by
  rw [forecast_future_payments] at h
  by_cases hlen : (dailyDates t).length < 2
  · rw [if_pos hlen] at h
    exact absurd h (by simp)
  · rw [if_neg hlen] at h
    have hds : ds = dailyDates t ++
        (List.range 30).map (fun i : Nat => (dailyDates t).getLastD 0 + ((i : Int) + 1)) :=
      (Except.ok.inj h).symm
    subst hds
    have hlenEq : (dailyDates t).length = (pendingDates t).dedup.length :=
      (List.perm_insertionSort _ _).length_eq
    have hsortedLT : (dailyDates t).Sorted (· < ·) :=
      (dailyDates_sorted t).lt_of_le (dailyDates_nodup t)
    have hfut : ((List.range 30).map
        (fun i : Nat => (dailyDates t).getLastD 0 + ((i : Int) + 1))).Pairwise (· < ·) := by
      refine List.Pairwise.map _ ?_ (List.pairwise_lt_range 30)
      intro a b hab
      omega
    have hcross : ∀ a ∈ dailyDates t,
        ∀ b ∈ (List.range 30).map (fun i : Nat => (dailyDates t).getLastD 0 + ((i : Int) + 1)),
        a < b := by
      intro a ha b hb
      obtain ⟨i, hi, rfl⟩ := List.mem_map.mp hb
      have := sorted_le_getLastD (dailyDates t) (dailyDates_sorted t) a ha 0
      omega
    have hpair := List.pairwise_append.mpr ⟨hsortedLT, hfut, hcross⟩
    refine ⟨?_, hpair, List.Pairwise.imp (fun hab => ne_of_lt hab) hpair⟩
    simp [List.length_append, List.length_map, List.length_range, hlenEq]

/-- C9 witness: the claim instantiated on the two-date table, whose
forecast spine is the 32 consecutive days 0 through 31. -/
theorem claim_C9_witness :
    ([0, 1, 2, 3, 4, 5, 6, 7, 8, 9, 10, 11, 12, 13, 14, 15, 16, 17, 18, 19, 20, 21, 22,
      23, 24, 25, 26, 27, 28, 29, 30, 31] : List Int).length =
      (pendingDates tblTwoDates).dedup.length + 30 ∧
    ([0, 1, 2, 3, 4, 5, 6, 7, 8, 9, 10, 11, 12, 13, 14, 15, 16, 17, 18, 19, 20, 21, 22,
      23, 24, 25, 26, 27, 28, 29, 30, 31] : List Int).Sorted (· < ·) ∧
    ([0, 1, 2, 3, 4, 5, 6, 7, 8, 9, 10, 11, 12, 13, 14, 15, 16, 17, 18, 19, 20, 21, 22,
      23, 24, 25, 26, 27, 28, 29, 30, 31] : List Int).Nodup :=
  claim_C9 tblTwoDates _ rfl

end InvoiceApp
